import Mathlib

/-!
Verification of the EarthSim `Drawing_Tools` notebook
(`src/examples/user_guide/Drawing_Tools.ipynb`) against its natural-language
specification.

The notebook is a tutorial/glue layer: it instantiates holoviews drawing
streams (PointDraw, BoxEdit, PolyEdit, PolyDraw, FreehandDraw), attaches each
to a geometry wrapper, and reads the mirrored data back out.  The embedding
below models the notebook's own code (the `bbox` helper, the guarded post-edit
cells, the `os.makedirs` guard, the inventory of stream instantiations) and,
where a claim rests on behaviour of this repository that is not present under
`src/` (the `earthsim.io.save_shapefile` routine, the stream mirroring and
`num_objects` eviction implemented in the host toolkit), models that part
from the specification's description, as flagged in each doc comment.
-/

namespace DrawingTools

/-- A vertex of a drawn geometry: an (x, y) coordinate pair.  Coordinates are
modelled as rationals; the notebook's own operations on coordinates are pure
selection and comparison, never arithmetic, so any linearly ordered field is a
faithful carrier for them. -/
structure Vertex where
  x : ℚ
  y : ℚ
deriving DecidableEq, Repr

/-- A polygon, as the ordered array of vertices obtained from `poly.array()`
in the notebook. -/
abbrev Polygon := List Vertex

/-- The `bbox` helper of the notebook (cell "Drawing bounding boxes"):

    def bbox(poly):
        xs,ys = poly.array().T
        return (xs[0], ys[0], xs[2], ys[2])

Indexing `xs[0]` or `xs[2]` out of range raises `IndexError` in Python, which
is modelled by `none`. -/
def bbox (poly : Polygon) : Option (ℚ × ℚ × ℚ × ℚ) :=
  match poly[0]?, poly[2]? with
  | some v0, some v2 => some (v0.x, v0.y, v2.x, v2.y)
  | _, _ => none

/-- Modelled from the spec: the BoxEdit tool lives in the host toolkit, and
the spec's data model describes its objects as a "four-corner polygon
constrained to axis-aligned rectangle shape".  Four vertices in cyclic order
form an axis-aligned rectangle when the second and fourth vertices combine the
coordinates of the first and third (in one of the two possible orientations)
and the rectangle is non-degenerate. -/
def isAxisAlignedRect (p0 p1 p2 p3 : Vertex) : Prop :=
  p0.x ≠ p2.x ∧ p0.y ≠ p2.y ∧
    ((p1 = ⟨p0.x, p2.y⟩ ∧ p3 = ⟨p2.x, p0.y⟩) ∨
     (p1 = ⟨p2.x, p0.y⟩ ∧ p3 = ⟨p0.x, p2.y⟩))

instance (p0 p1 p2 p3 : Vertex) : Decidable (isAxisAlignedRect p0 p1 p2 p3) := by
  unfold isAxisAlignedRect
  infer_instance

/-- Claim C1: for every 4-vertex axis-aligned rectangle polygon (as returned
by the BoxEdit stream), `bbox` returns the 4-tuple `(xs[0], ys[0], xs[2],
ys[2])` formed from the first and third vertices, and this tuple is a bounding
box of the rectangle: every vertex of the rectangle lies within the box it
spans, and its two coordinate pairs are diagonally opposite corners (they
differ in both coordinates). -/
theorem bbox_of_rect (p0 p1 p2 p3 : Vertex)
    (h : isAxisAlignedRect p0 p1 p2 p3) :
    bbox [p0, p1, p2, p3] = some (p0.x, p0.y, p2.x, p2.y) ∧
    (∀ v ∈ [p0, p1, p2, p3],
       min p0.x p2.x ≤ v.x ∧ v.x ≤ max p0.x p2.x ∧
       min p0.y p2.y ≤ v.y ∧ v.y ≤ max p0.y p2.y) ∧
    p0.x ≠ p2.x ∧ p0.y ≠ p2.y := by
  obtain ⟨hx, hy, hcase⟩ := h
  refine ⟨rfl, ?_, hx, hy⟩
  intro v hv
  simp only [List.mem_cons, List.not_mem_nil, or_false] at hv
  rcases hcase with ⟨h1, h3⟩ | ⟨h1, h3⟩ <;> subst h1 <;> subst h3 <;>
    rcases hv with rfl | rfl | rfl | rfl <;>
    refine ⟨?_, ?_, ?_, ?_⟩ <;>
    first
      | exact min_le_left _ _
      | exact min_le_right _ _
      | exact le_max_left _ _
      | exact le_max_right _ _

/-- Witness for C1 at a concrete rectangle. -/
theorem bbox_of_rect_witness :
    isAxisAlignedRect ⟨0, 0⟩ ⟨0, 1⟩ ⟨2, 1⟩ ⟨2, 0⟩ ∧
    (bbox [⟨0, 0⟩, ⟨0, 1⟩, ⟨2, 1⟩, ⟨2, 0⟩] = some (0, 0, 2, 1) ∧
     (∀ v ∈ ([⟨0, 0⟩, ⟨0, 1⟩, ⟨2, 1⟩, ⟨2, 0⟩] : List Vertex),
        min (0 : ℚ) 2 ≤ v.x ∧ v.x ≤ max (0 : ℚ) 2 ∧
        min (0 : ℚ) 1 ≤ v.y ∧ v.y ≤ max (0 : ℚ) 1) ∧
     (0 : ℚ) ≠ 2 ∧ (0 : ℚ) ≠ 1) :=
  ⟨by decide, bbox_of_rect ⟨0, 0⟩ ⟨0, 1⟩ ⟨2, 1⟩ ⟨2, 0⟩ (by decide)⟩

/-- Claim C3 counterexample: `bbox` does have a failure mode.  On a one-vertex
polygon the index `xs[2]` is out of range, so evaluating `bbox` fails. -/
theorem bbox_failure_counterexample :
    bbox [⟨0, 0⟩] = none := by
  decide

/-- Claim C3 (amended): evaluating `bbox` succeeds exactly when the polygon
has at least 3 vertices; on shorter polygons the index 2 is out of bounds and
`bbox` fails. -/
theorem bbox_succeeds_iff (poly : Polygon) :
    (bbox poly).isSome = true ↔ 3 ≤ poly.length := by
  match poly with
  | [] => simp [bbox]
  | [_] => simp [bbox]
  | [_, _] => simp [bbox]
  | _ :: _ :: _ :: rest =>
      simp [bbox]

/-- Claim C10: the output of `bbox` depends only on the vertices at positions
0 and 2 of its input: any two polygons agreeing there get the same result,
whatever their other vertices.  (`bbox` is a pure function, so determinism is
built into the embedding.) -/
theorem bbox_depends_only_on_corners (p q : Polygon)
    (h0 : p[0]? = q[0]?) (h2 : p[2]? = q[2]?) :
    bbox p = bbox q := by
  unfold bbox
  rw [h0, h2]

/-- Witness for C10: two polygons agreeing at vertices 0 and 2 but differing
at vertices 1 and 3 receive the same bounding box. -/
theorem bbox_depends_only_on_corners_witness :
    (([⟨0, 0⟩, ⟨5, 5⟩, ⟨2, 1⟩, ⟨7, 7⟩] : Polygon)[0]? =
       ([⟨0, 0⟩, ⟨9, 9⟩, ⟨2, 1⟩, ⟨8, 8⟩] : Polygon)[0]?) ∧
    (([⟨0, 0⟩, ⟨5, 5⟩, ⟨2, 1⟩, ⟨7, 7⟩] : Polygon)[2]? =
       ([⟨0, 0⟩, ⟨9, 9⟩, ⟨2, 1⟩, ⟨8, 8⟩] : Polygon)[2]?) ∧
    bbox [⟨0, 0⟩, ⟨5, 5⟩, ⟨2, 1⟩, ⟨7, 7⟩] =
      bbox [⟨0, 0⟩, ⟨9, 9⟩, ⟨2, 1⟩, ⟨8, 8⟩] :=
  ⟨rfl, rfl, bbox_depends_only_on_corners _ _ rfl rfl⟩

/-- The stream adapter kinds imported from `holoviews.streams` in the
notebook's first code cell:
`from holoviews.streams import PointDraw, PolyEdit, BoxEdit, PolyDraw, FreehandDraw`. -/
inductive StreamKind
  | pointDraw
  | polyEdit
  | boxEdit
  | polyDraw
  | freehandDraw
deriving DecidableEq, Repr

/-- The geometry wrapper objects the notebook constructs and attaches streams
to, one constructor per distinct wrapper object.  The `new_polys` of the
combined draw-and-edit cell is a fresh `gv.Polygons` object, distinct from the
`new_polys` of the polygon-drawing cell, hence the separate constructor
`new_polys_edit`. -/
inductive GeomWrapper
  | points
  | box_poly
  | mask_poly
  | path
  | new_polys
  | new_paths
  | new_polys_edit
deriving DecidableEq, Repr

/-- All stream adapter instantiations of the notebook, in source order, each
paired with the geometry wrapper passed as its `source`:
`PointDraw(source=points, num_objects=10)`,
`BoxEdit(source=box_poly, num_objects=3)`,
`PolyEdit(source=mask_poly)`,
`FreehandDraw(source=path, num_objects=3)`,
`PolyDraw(source=new_polys, show_vertices=True)`,
`PolyDraw(source=new_paths, show_vertices=True)`, and in the combined
draw-and-edit cell `PolyDraw(source=new_polys)` and
`PolyEdit(source=new_polys)` on the same freshly constructed wrapper. -/
def notebook_streams : List (StreamKind × GeomWrapper) :=
  [(.pointDraw, .points),
   (.boxEdit, .box_poly),
   (.polyEdit, .mask_poly),
   (.freehandDraw, .path),
   (.polyDraw, .new_polys),
   (.polyDraw, .new_paths),
   (.polyDraw, .new_polys_edit),
   (.polyEdit, .new_polys_edit)]

/-- The distinct geometry wrappers of the notebook. -/
def notebook_wrappers : List GeomWrapper :=
  [.points, .box_poly, .mask_poly, .path, .new_polys, .new_paths,
   .new_polys_edit]

/-- How many instantiated stream adapters use the given wrapper as `source`. -/
def sourceCount (w : GeomWrapper) : Nat :=
  (notebook_streams.filter (fun s => s.2 == w)).length

/-- Claim C5 counterexample: the notebook uses five stream adapter kinds, not
four, and the `Polygons` wrapper of the combined draw-and-edit cell is the
source of two adapters (a PolyDraw and a PolyEdit), so the claim fails on both
counts. -/
theorem notebook_streams_counterexample :
    (notebook_streams.map Prod.fst).dedup.length = 5 ∧
    sourceCount GeomWrapper.new_polys_edit = 2 := by
  decide

/-- Claim C5 (amended): the notebook's interactive stream bindings consist of
five adapter kinds (point-draw, box-edit, polygon-edit, polygon-draw,
freehand-draw); each of the eight instantiated adapters is attached to exactly
one geometry wrapper; and every wrapper is the source of exactly one adapter,
except the `Polygons` wrapper of the combined draw-and-edit cell, which
sources two (a PolyDraw and a PolyEdit on the same object). -/
theorem notebook_streams_amended :
    (notebook_streams.map Prod.fst).dedup.length = 5 ∧
    notebook_streams.length = 8 ∧
    notebook_wrappers.map sourceCount = [1, 1, 1, 1, 1, 1, 2] := by
  decide

/-- The `num_objects` value passed to the PointDraw stream. -/
def point_stream_num_objects : Nat := 10

/-- The `num_objects` value passed to the BoxEdit stream. -/
def box_stream_num_objects : Nat := 3

/-- The `num_objects` value passed to the FreehandDraw stream. -/
def freehand_stream_num_objects : Nat := 3

/-- Modelled from the spec: the `num_objects` eviction of the drawing streams
is implemented in the host toolkit, not under `src/`; the notebook documents
it as "ensuring that when the limit is reached the oldest point is dropped"
and "causing the oldest box to be dropped when the limit is exceeded".
Drawing a new object appends it to the held objects, and when the configured
maximum is exceeded the oldest (first) object is dropped. -/
def drawObject (numObjects : Nat) (objs : List Polygon) (obj : Polygon) :
    List Polygon :=
  let objs' := objs ++ [obj]
  if numObjects < objs'.length then objs'.tail else objs'

/-- Claim C2: for each stream configured with `num_objects` (the point stream
with limit 10, the box stream with limit 3, the freehand stream with limit 3),
drawing a new object never pushes the object count above the configured
maximum, and when the stream already holds exactly `num_objects` objects the
oldest one is dropped. -/
theorem num_objects_eviction (n : Nat)
    (hn : n = point_stream_num_objects ∨ n = box_stream_num_objects ∨
          n = freehand_stream_num_objects)
    (objs : List Polygon) (obj : Polygon) (hle : objs.length ≤ n) :
    (drawObject n objs obj).length ≤ n ∧
    (objs.length = n → drawObject n objs obj = objs.tail ++ [obj]) := by
  have hpos : 0 < n := by
    rcases hn with h | h | h <;> subst h <;> decide
  constructor
  · unfold drawObject
    dsimp only
    split
    · simp only [List.length_tail, List.length_append, List.length_cons,
        List.length_nil]
      omega
    · simp only [List.length_append, List.length_cons, List.length_nil] at *
      omega
  · intro heq
    unfold drawObject
    dsimp only
    have hlt : n < (objs ++ [obj]).length := by
      simp only [List.length_append, List.length_cons, List.length_nil]
      omega
    rw [if_pos hlt]
    cases objs with
    | nil =>
        simp only [List.length_nil] at heq
        omega
    | cons a as => simp

/-- Witness for C2 at the box stream's limit of 3, with three boxes already
held and a fourth drawn. -/
theorem num_objects_eviction_witness :
    (3 = point_stream_num_objects ∨ 3 = box_stream_num_objects ∨
     3 = freehand_stream_num_objects) ∧
    ([[⟨0, 0⟩], [⟨1, 1⟩], [⟨2, 2⟩]] : List Polygon).length ≤ 3 ∧
    ((drawObject 3 [[⟨0, 0⟩], [⟨1, 1⟩], [⟨2, 2⟩]] [⟨3, 3⟩]).length ≤ 3 ∧
     (([[⟨0, 0⟩], [⟨1, 1⟩], [⟨2, 2⟩]] : List Polygon).length = 3 →
        drawObject 3 [[⟨0, 0⟩], [⟨1, 1⟩], [⟨2, 2⟩]] [⟨3, 3⟩] =
          ([[⟨0, 0⟩], [⟨1, 1⟩], [⟨2, 2⟩]] : List Polygon).tail ++ [[⟨3, 3⟩]])) :=
  ⟨by decide, by decide,
   num_objects_eviction 3 (by decide) [[⟨0, 0⟩], [⟨1, 1⟩], [⟨2, 2⟩]] [⟨3, 3⟩]
     (by decide)⟩

/-- Modelled from the spec: the live mirror kept by a drawing stream.  The
sync machinery lives in the host toolkit; the spec describes it as "a pure
reflection of current on-canvas state — no independent source of truth, no
caching layer".  A canvas event updates the on-canvas objects and the stream's
mirrored data by the same transformation. -/
structure SyncState where
  canvas : List Polygon
  mirror : List Polygon

/-- Canvas events relevant to the mirrored data: drawing a new object on a
stream configured with `num_objects`, and deleting an object. -/
inductive CanvasEvent
  | draw (numObjects : Nat) (obj : Polygon)
  | delete (idx : Nat)

/-- How a canvas event transforms a list of held objects. -/
def applyEventObjects (objs : List Polygon) : CanvasEvent → List Polygon
  | .draw n obj => drawObject n objs obj
  | .delete i => objs.eraseIdx i

/-- A canvas event updates the canvas and the stream mirror together. -/
def applyEvent (s : SyncState) (e : CanvasEvent) : SyncState :=
  ⟨applyEventObjects s.canvas e, applyEventObjects s.mirror e⟩

/-- The state right after the bindings are configured: empty canvas, empty
mirror. -/
def initSync : SyncState := ⟨[], []⟩

/-- Run a sequence of canvas events from a state. -/
def runEvents (s : SyncState) : List CanvasEvent → SyncState
  | [] => s
  | e :: es => runEvents (applyEvent s e) es

theorem runEvents_mirror_eq (es : List CanvasEvent) :
    ∀ s : SyncState, s.mirror = s.canvas →
      (runEvents s es).mirror = (runEvents s es).canvas := by
  induction es with
  | nil => exact fun s h => h
  | cons e es ih =>
      intro s h
      exact ih (applyEvent s e) (by simp only [applyEvent, h])

/-- Claim C7: after any sequence of canvas events following configuration,
the stream's mirrored data equals the current on-canvas state; since reading
the mirror is a pure projection of that state, any two reads with no
intervening canvas change return equal values. -/
theorem stream_mirror_pure_reflection (es : List CanvasEvent) :
    (runEvents initSync es).mirror = (runEvents initSync es).canvas :=
  runEvents_mirror_eq es initSync rfl

/-- The on-disk contents relevant to the notebook: what polygon geometry, if
any, is stored at each path. -/
def FileSystem : Type := String → Option Polygon

/-- Modelled from the spec: `earthsim.io.save_shapefile` belongs to this
repository but is not under `src/` (the notebook only imports and calls it).
The spec describes it as the "on-disk persisted form of an edited polygon,
round-tripped through a standard vector geometry file format": it persists the
edited polygon data at the given path, using the original shapefile as a
template for metadata, the geometry written being the edited data. -/
def save_shapefile (data : Polygon) (path : String) (template : String)
    (fs : FileSystem) : FileSystem :=
  fun f => if f = path then some data else fs f

/-- Modelled from the spec: `gv.Shape.from_shapefile` reads back the geometry
stored at the given path. -/
def from_shapefile (path : String) (fs : FileSystem) : Option Polygon :=
  fs path

/-- Claim C4: writing an edited polygon with `save_shapefile` and reading it
back with `from_shapefile` yields exactly the edited geometry (write/read
round-trip through the shapefile format). -/
theorem save_shapefile_roundtrip (data : Polygon) (path template : String)
    (fs : FileSystem) :
    from_shapefile path (save_shapefile data path template fs) = some data := by
  simp [from_shapefile, save_shapefile]

/-- The notebook state the post-edit cells act on: the streams' mirrored
data, the `mask_shape` variable's geometry, the filesystem contents and the
set of existing directories. -/
structure NotebookState where
  point_data : Polygon
  box_polys : List Polygon
  vertex_data : Polygon
  mask_shape : Polygon
  fs : FileSystem
  dirs : List String

/-- The post-edit cell for the point stream:
`if point_stream.data: display(point_stream.element.dframe())`.
Returns the displayed dataframe, if any, together with the notebook state
after the cell. -/
def cell_point_dframe (s : NotebookState) : Option Polygon × NotebookState :=
  if s.point_data ≠ [] then (some s.point_data, s) else (none, s)

/-- The post-edit cell for the box stream:
`if box_stream.element: polygons = box_stream.element.split();
bboxes = [bbox(p) for p in polygons]; print(bboxes)`.
Returns the printed list of bounding boxes (none when the guard fails or a
`bbox` call fails) together with the notebook state after the cell. -/
def cell_box_bboxes (s : NotebookState) :
    Option (List (ℚ × ℚ × ℚ × ℚ)) × NotebookState :=
  if s.box_polys ≠ [] then (s.box_polys.mapM bbox, s) else (none, s)

/-- The path `../data/vicksburg_watershed_edited/watershed_boundary.shp` the
edited shape is saved to. -/
def edited_shape_fname : String :=
  "../data/vicksburg_watershed_edited/watershed_boundary.shp"

/-- The original shapefile path
`../data/vicksburg_watershed/watershed_boundary.shp`. -/
def shapefile : String :=
  "../data/vicksburg_watershed/watershed_boundary.shp"

/-- `os.path.dirname(edited_shape_fname)`. -/
def edited_dir_name : String := "../data/vicksburg_watershed_edited"

/-- The guard `if not os.path.isdir(dir_name): os.makedirs(dir_name)`: the
directory is created exactly when it does not already exist. -/
def makedirs_unless_exists (dirs : List String) (d : String) : List String :=
  if d ∈ dirs then dirs else d :: dirs

/-- Modelled from the spec: `.opts()` clears the display options of a shape
("Clear options to avoid adding edit tool"); its geometry content, the only
part of the data model here, is unchanged. -/
def opts_cleared (shape : Polygon) : Polygon := shape

/-- The guarded body of the shapefile-saving cell:
`if vertex_stream.data:` create the output directory if missing, call
`save_shapefile(vertex_stream.data, edited_shape_fname, shapefile)`, and
rebind `mask_shape` to `gv.Shape.from_shapefile(edited_shape_fname)`. -/
def cell_save_shapefile (s : NotebookState) : NotebookState :=
  if s.vertex_data ≠ [] then
    let dirs' := makedirs_unless_exists s.dirs edited_dir_name
    let fs' := save_shapefile s.vertex_data edited_shape_fname shapefile s.fs
    { s with
      dirs := dirs'
      fs := fs'
      mask_shape := (from_shapefile edited_shape_fname fs').getD s.mask_shape }
  else s

/-- The whole shapefile cell, including the final
`mask_shape = mask_shape.opts()` and the display of `mask_shape`: returns the
displayed shape and the notebook state after the cell. -/
def cell_shapefile_display (s : NotebookState) : Polygon × NotebookState :=
  let s' := cell_save_shapefile s
  let s'' := { s' with mask_shape := opts_cleared s'.mask_shape }
  (s''.mask_shape, s'')

/-- Claim C6: the post-edit data-access cells (displaying the point stream's
dataframe, extracting bounding boxes from the box stream's element) are pure
reads: they leave the notebook state — the streams' mirrored data, the source
geometry, the filesystem — unchanged. -/
theorem post_edit_reads_pure (s : NotebookState) :
    (cell_point_dframe s).2 = s ∧ (cell_box_bboxes s).2 = s := by
  unfold cell_point_dframe cell_box_bboxes
  constructor <;> split <;> rfl

/-- Claim C8: when a stream holds no drawn data, the corresponding post-edit
cell is a no-op on outputs and the filesystem: no dataframe is displayed, no
bounding-box list is printed, no shapefile is written, and `mask_shape` keeps
the original shapefile content. -/
theorem empty_stream_cells_noop (s : NotebookState) :
    (s.point_data = [] →
       (cell_point_dframe s).1 = none ∧ (cell_point_dframe s).2 = s) ∧
    (s.box_polys = [] →
       (cell_box_bboxes s).1 = none ∧ (cell_box_bboxes s).2 = s) ∧
    (s.vertex_data = [] →
       (cell_shapefile_display s).2 = s ∧
       (cell_shapefile_display s).2.fs = s.fs ∧
       (cell_shapefile_display s).1 = s.mask_shape) := by
  refine ⟨fun h => ?_, fun h => ?_, fun h => ?_⟩
  · unfold cell_point_dframe
    rw [if_neg (by simp [h])]
    exact ⟨rfl, rfl⟩
  · unfold cell_box_bboxes
    rw [if_neg (by simp [h])]
    exact ⟨rfl, rfl⟩
  · have hsave : cell_save_shapefile s = s := by
      unfold cell_save_shapefile
      rw [if_neg (by simp [h])]
    unfold cell_shapefile_display opts_cleared
    rw [hsave]
    exact ⟨rfl, rfl, rfl⟩

/-- A notebook state in which no stream holds any drawn data. -/
def emptyNotebookState : NotebookState :=
  ⟨[], [], [], [⟨0, 0⟩], fun _ => none, []⟩

/-- Witness for C8 at a concrete state with all streams empty. -/
theorem empty_stream_cells_noop_witness :
    (cell_point_dframe emptyNotebookState).1 = none ∧
    (cell_box_bboxes emptyNotebookState).1 = none ∧
    (cell_shapefile_display emptyNotebookState).2 = emptyNotebookState ∧
    (cell_shapefile_display emptyNotebookState).1 =
      emptyNotebookState.mask_shape :=
  ⟨((empty_stream_cells_noop emptyNotebookState).1 rfl).1,
   ((empty_stream_cells_noop emptyNotebookState).2.1 rfl).1,
   ((empty_stream_cells_noop emptyNotebookState).2.2 rfl).1,
   ((empty_stream_cells_noop emptyNotebookState).2.2 rfl).2.2⟩

/-- Claim C9: when the shapefile-saving cell runs with non-empty
`vertex_stream.data`, the output directory is created exactly when it does not
already exist, is left untouched when it does, and `save_shapefile` ends up
invoked with an existing parent directory. -/
theorem makedirs_guard_correct (s : NotebookState)
    (h : s.vertex_data ≠ []) :
    edited_dir_name ∈ (cell_save_shapefile s).dirs ∧
    (edited_dir_name ∈ s.dirs → (cell_save_shapefile s).dirs = s.dirs) ∧
    (edited_dir_name ∉ s.dirs →
       (cell_save_shapefile s).dirs = edited_dir_name :: s.dirs) := by
  unfold cell_save_shapefile makedirs_unless_exists
  rw [if_pos h]
  dsimp only
  by_cases hd : edited_dir_name ∈ s.dirs
  · rw [if_pos hd]
    exact ⟨hd, fun _ => rfl, fun hc => absurd hd hc⟩
  · rw [if_neg hd]
    exact ⟨List.mem_cons_self _ _, fun hc => absurd hc hd, fun _ => rfl⟩

/-- A notebook state in which the PolyEdit vertex stream holds an edited
polygon. -/
def vertexNotebookState : NotebookState :=
  ⟨[], [], [⟨0, 0⟩, ⟨1, 0⟩, ⟨0, 1⟩], [⟨0, 0⟩], fun _ => none, []⟩

/-- Witness for C9 at a concrete state with non-empty vertex data and no
pre-existing output directory. -/
theorem makedirs_guard_correct_witness :
    vertexNotebookState.vertex_data ≠ [] ∧
    edited_dir_name ∈ (cell_save_shapefile vertexNotebookState).dirs ∧
    (cell_save_shapefile vertexNotebookState).dirs =
      edited_dir_name :: vertexNotebookState.dirs :=
  ⟨by decide,
   (makedirs_guard_correct vertexNotebookState (by decide)).1,
   (makedirs_guard_correct vertexNotebookState (by decide)).2.2
     (by decide)⟩

end DrawingTools
